import Mathlib

/-
Verification of the daeR bookshelf client (src/unnamed/part_000, the live
component, and src/src/App.vue, its superseded variant).

The component is shallowly embedded: the reactive refs and module-level
timer handles become fields of an explicit state record, timer callbacks
and fetch resolutions become state-transition functions, and the
event-loop interleaving becomes an explicit list of events folded over the
state.  Network outcomes are supplied by oracles: silent retry fetches by
a function from the attempt index to a boolean (plus a data oracle for the
payload on success), non-silent fetches by an explicit outcome value
carried on the resolution event.  Hue arithmetic from the gradient
generator is embedded in exact rationals; the JavaScript source computes
it in binary64, and the claims are about the real-arithmetic formula.
-/

namespace DaeR

/-- An item returned by the REST API (a book). -/
structure Item where
  id : Nat
  name : String
deriving DecidableEq

/-! ## Gradient generator and color assignment (part_000 lines 24-48) -/

def GOLDEN_ANGLE : ℚ := 137.508

def BASE_SATURATION : ℚ := 78

def BASE_LIGHTNESS : ℚ := 56

def GRADIENT_STEP : ℚ := 22

/-- JavaScript's binary remainder - for the nonnegative operands used here
it is x - y * floor (x / y). -/
def jsMod (x y : ℚ) : ℚ := x - y * ((x / y).floor : ℚ)

def hsl (h s l : ℚ) : String :=
  "hsl(" ++ toString h ++ " " ++ toString s ++ "% " ++ toString l ++ "%)"

/-- gradientFromIndex of part_000: three hues stepped from a golden-angle
multiple of the index, with fixed saturation and lightness. -/
def gradientFromIndex (index : Nat) : String :=
  let hue := jsMod ((index : ℚ) * GOLDEN_ANGLE) 360
  let midHue := jsMod (hue + GRADIENT_STEP) 360
  let endHue := jsMod (hue + GRADIENT_STEP * 2) 360
  "linear-gradient(135deg, " ++ hsl hue BASE_SATURATION (BASE_LIGHTNESS + 8) ++ ", " ++
    hsl midHue BASE_SATURATION BASE_LIGHTNESS ++ ", " ++
    hsl endHue (BASE_SATURATION - 6) (BASE_LIGHTNESS - 10) ++ ")"

/-- Modelled from the spec's words for claim C9 (a refinement reference,
not from the source): index i maps to hue (i * 137.508) mod 360, with two
further hues offset by the fixed steps 22 and 44 (mod 360), and fixed
saturation and lightness constants. -/
def gradientSpec (index : Nat) : String :=
  let hue := jsMod ((index : ℚ) * 137.508) 360
  let midHue := jsMod (hue + 22) 360
  let endHue := jsMod (hue + 44) 360
  "linear-gradient(135deg, " ++ hsl hue 78 (56 + 8) ++ ", " ++
    hsl midHue 78 56 ++ ", " ++
    hsl endHue (78 - 6) (56 - 10) ++ ")"

/-- The color map: insertion-ordered association of item id to gradient,
mirroring the insertion order of a JavaScript object with numeric-free
string keys (here modelled with Nat ids). -/
abbrev ColorMap := List (Nat × String)

def lookupColor (m : ColorMap) (id : Nat) : Option String :=
  (m.find? (fun p => p.1 == id)).map (fun p => p.2)

/-- Object.keys(colorMap.value).length -/
def nextColorIndex (m : ColorMap) : Nat := m.length

/-- The forEach loop of assignColors with its running colorIndex. -/
def assignColorsAux : ColorMap → Nat → List Item → ColorMap
  | m, _, [] => m
  | m, colorIndex, item :: rest =>
    if (lookupColor m item.id).isSome then assignColorsAux m colorIndex rest
    else assignColorsAux (m ++ [(item.id, gradientFromIndex colorIndex)]) (colorIndex + 1) rest

/-- assignColors of part_000: give each not-yet-colored item the next
gradient, starting the index at the current map size. -/
def assignColors (m : ColorMap) (items : List Item) : ColorMap :=
  assignColorsAux m (nextColorIndex m) items

/-- The ids among items that are not yet in ks, in first-seen order,
each listed once. -/
def freshKeys (ks : List Nat) : List Item → List Nat
  | [] => []
  | item :: rest =>
    if item.id ∈ ks then freshKeys ks rest
    else item.id :: freshKeys (ks ++ [item.id]) rest

/-- Tag a list of ids with gradients at consecutive indices from k. -/
def tagFrom : Nat → List Nat → ColorMap
  | _, [] => []
  | k, id :: rest => (id, gradientFromIndex k) :: tagFrom (k + 1) rest

/-! ## The component state (refs and module-level timer variables of part_000)

Timer handles become booleans (a timer is scheduled or not); the grace
interval's closure variable secondsLeft becomes a field; the per-call
local bannerKickoffPending of the one pending non-silent fetchBooks call
becomes a field; attemptsIssued, silentInFlightCount and httpRequests are
ghost observers (attempt index fed to the outcome oracle, count of
unresolved silent fetchBooks calls, count of fetch invocations). -/

structure MainParams where
  triggerBannerOnFailure : Bool
  allowImmediateFailure : Bool
deriving DecidableEq

structure AppState where
  books : List Item
  colorMap : ColorMap
  formName : String
  editingId : Option Nat
  statusMessage : String
  loading : Bool
  bannerVisible : Bool
  bannerMessage : String
  bannerCountdown : Option Int
  bannerPhase : String
  bannerFailureMessage : String
  bannerDelayTimer : Bool
  countdownTimer : Bool
  graceTimer : Bool
  graceSecondsLeft : Int
  finalTimer : Bool
  bannerFetchInFlight : Bool
  bannerKickoffPending : Bool
  silentIdx : Nat
  graceContPending : Bool
  attemptsIssued : Nat
  silentInFlightCount : Nat
  httpRequests : Nat
  mainPending : Option MainParams
deriving DecidableEq

/-- The state right after setup runs (the ref initializers of lines 6-22). -/
def initialState : AppState where
  books := []
  colorMap := []
  formName := ""
  editingId := none
  statusMessage := "Use this shelf to exercise the API while dreaming about books to read next."
  loading := false
  bannerVisible := false
  bannerMessage := ""
  bannerCountdown := none
  bannerPhase := ""
  bannerFailureMessage := "Failed to fetch"
  bannerDelayTimer := false
  countdownTimer := false
  graceTimer := false
  graceSecondsLeft := 0
  finalTimer := false
  bannerFetchInFlight := false
  bannerKickoffPending := false
  silentIdx := 0
  graceContPending := false
  attemptsIssued := 0
  silentInFlightCount := 0
  httpRequests := 0
  mainPending := none

/-! ## Banner operations (part_000 lines 59-190) -/

/-- clearBannerTimers (lines 59-72): clears countdown, grace and final
timers.  Note it does not touch bannerDelayTimer. -/
def clearBannerTimers (s : AppState) : AppState :=
  { s with countdownTimer := false, graceTimer := false, finalTimer := false }

/-- hideBanner (lines 74-80). -/
def hideBanner (s : AppState) : AppState :=
  clearBannerTimers
    { s with bannerVisible := false, bannerCountdown := none, bannerMessage := "",
             bannerPhase := "" }

/-- The synchronous part of tryFetchDuringBanner (lines 138-143): the
guard flag suppresses a second fetch; otherwise a silent fetchBooks is
issued (its resolution is the separate silentResolve step). -/
def tryFetchDuringBanner (s : AppState) : AppState :=
  if s.bannerFetchInFlight = true then s
  else
    { s with bannerFetchInFlight := true, silentIdx := s.attemptsIssued,
             attemptsIssued := s.attemptsIssued + 1,
             silentInFlightCount := s.silentInFlightCount + 1,
             httpRequests := s.httpRequests + 1 }

/-- The tail of the grace interval callback after the await (lines
152-158): when the closure's secondsLeft has reached zero and the banner
is still visible, move to the failed phase and schedule the 3-second
auto-hide. -/
def graceCheck (s : AppState) : AppState :=
  if s.graceSecondsLeft ≤ 0 ∧ s.bannerVisible = true then
    { s with graceTimer := false, bannerPhase := "failed",
             bannerMessage := s.bannerFailureMessage, finalTimer := true }
  else s

/-- startGracePeriod (lines 145-160): the interval body is the graceTick
step below. -/
def startGracePeriod (s : AppState) : AppState :=
  { s with graceSecondsLeft := 10, bannerPhase := "grace",
           bannerMessage := "The server is starting...", graceTimer := true }

/-- startServerWakeBanner (lines 162-190).  In the non-immediate branch
the kickoff tryFetchDuringBanner only issues its fetch synchronously, so
the countdown interval handle is assigned in the same instant. -/
def startServerWakeBanner (immediateFailure : Bool) (failureMessage : String)
    (s : AppState) : AppState :=
  let s := { s with bannerVisible := true, bannerFailureMessage := failureMessage }
  if immediateFailure = true then
    { s with bannerPhase := "failed", bannerMessage := failureMessage,
             bannerCountdown := none, finalTimer := true }
  else
    let s := { s with bannerPhase := "countdown",
                      bannerMessage := "Starting server, it usually takes",
                      bannerCountdown := some 25 }
    let s := tryFetchDuringBanner s
    { s with countdownTimer := true }

/-- One firing of the countdown interval (lines 179-189).  A null
countdown compares as not greater than 1, as in JavaScript. -/
def countdownTick (s : AppState) : AppState :=
  if s.countdownTimer = true then
    if s.bannerCountdown.getD 0 > 1 then
      tryFetchDuringBanner { s with bannerCountdown := some (s.bannerCountdown.getD 0 - 1) }
    else
      startGracePeriod { s with countdownTimer := false, bannerCountdown := none }
  else s

/-- One firing of the grace interval (lines 149-159).  If the retry guard
is up, the awaited call returns at once and the check runs now; otherwise
a fetch is issued and the check is the continuation run at its
resolution. -/
def graceTick (s : AppState) : AppState :=
  if s.graceTimer = true then
    let s := { s with graceSecondsLeft := s.graceSecondsLeft - 1 }
    if s.bannerFetchInFlight = true then graceCheck s
    else { (tryFetchDuringBanner s) with graceContPending := true }
  else s

/-- The one-second scheduler: the countdown and grace intervals both fire
every 1000 ms and are never scheduled together; an interval created this
second first fires the next. -/
def second (s : AppState) : AppState :=
  if s.countdownTimer = true then countdownTick s
  else if s.graceTimer = true then graceTick s
  else s

/-- Resolution of the in-flight silent fetchBooks (lines 105-135 with
silent = true, then the flag reset of line 142 and the pending grace
continuation).  On success the list is replaced, colors assigned, the
refresh message set and the banner hidden; the finally block clears the
module-level bannerDelayTimer in either case. -/
def silentResolve (oracle : Nat → Bool) (dataOracle : Nat → List Item)
    (s : AppState) : AppState :=
  if s.bannerFetchInFlight = true then
    let s1 :=
      if oracle s.silentIdx = true then
        hideBanner
          { s with books := dataOracle s.silentIdx,
                   colorMap := assignColors s.colorMap (dataOracle s.silentIdx),
                   statusMessage := "Reading list refreshed. Ready for more stories!" }
      else s
    let s2 := { s1 with bannerDelayTimer := false, bannerFetchInFlight := false,
                        silentInFlightCount := s1.silentInFlightCount - 1 }
    if s2.graceContPending = true then graceCheck { s2 with graceContPending := false }
    else s2
  else s

/-- The 1200 ms banner kickoff timeout of fetchBooks (lines 96-102). -/
def delayFire (s : AppState) : AppState :=
  if s.bannerDelayTimer = true then
    let s1 :=
      if s.bannerVisible = false ∧ s.loading = true then
        startServerWakeBanner false "Unable to load books" s
      else s
    { s1 with bannerKickoffPending := false, bannerDelayTimer := false }
  else s

/-- The synchronous prefix of a non-silent fetchBooks call (lines 82-106
up to the await): at most one such call is modelled as pending at a
time, matching the disabled refresh button while loading. -/
def fetchBooksStart (p : MainParams) (s : AppState) : AppState :=
  if s.mainPending.isSome then s
  else
    let s := { s with loading := true, statusMessage := "Fetching your reading list...",
                      bannerKickoffPending := p.triggerBannerOnFailure,
                      httpRequests := s.httpRequests + 1, mainPending := some p }
    if p.triggerBannerOnFailure = true then { s with bannerDelayTimer := true } else s

/-- How a fetchBooks network round can end: 2xx with data, a non-ok
response (throwing the message of line 107), or a rejected fetch with no
response object and the runtime's message (Failed to fetch in Chromium). -/
inductive FetchOutcome where
  | success (data : List Item)
  | httpError
  | networkError (msg : String)
deriving DecidableEq

def FetchOutcome.errMessage : FetchOutcome → String
  | .success _ => ""
  | .httpError => "Unable to load books"
  | .networkError msg => msg

def FetchOutcome.noResponse : FetchOutcome → Bool
  | .networkError _ => true
  | _ => false

def FetchOutcome.isFailure : FetchOutcome → Bool
  | .success _ => false
  | _ => true

/-- Resolution of the pending non-silent fetchBooks (lines 105-135): the
success branch, or the catch branch with the immediate-failure
classification of line 121, then the finally block. -/
def mainResolve (o : FetchOutcome) (s : AppState) : AppState :=
  match s.mainPending with
  | none => s
  | some p =>
    let s := { s with mainPending := none }
    match o with
    | .success data =>
      let s := hideBanner
        { s with books := data, colorMap := assignColors s.colorMap data,
                 statusMessage := "Reading list refreshed. Ready for more stories!" }
      { s with bannerDelayTimer := false, loading := false }
    | o =>
      let s := { s with statusMessage := o.errMessage }
      let s :=
        if p.triggerBannerOnFailure = true ∧ s.bannerVisible = false then
          let s := { s with bannerDelayTimer := false }
          let immediateFailure :=
            p.allowImmediateFailure &&
              (o.noResponse || (o.errMessage == "Failed to fetch"))
          startServerWakeBanner immediateFailure
            (if s.bannerKickoffPending = true then o.errMessage else s.bannerFailureMessage) s
        else s
      { s with bannerDelayTimer := false, loading := false }

/-- onUnmounted(clearBannerTimers) (line 258). -/
def unmount (s : AppState) : AppState := clearBannerTimers s

/-! ## Form, save and delete handlers (part_000 lines 50-57, 192-251) -/

def resetForm (s : AppState) : AppState :=
  { s with formName := "", editingId := none }

def setMessage (text : String) (s : AppState) : AppState :=
  { s with statusMessage := text }

inductive SaveOutcome where
  | success (data : Item)
  | httpError
  | networkError (msg : String)
deriving DecidableEq

/-- String.prototype.trim: drop leading and trailing whitespace. -/
def jsTrim (str : String) : String :=
  String.mk (((str.data.dropWhile Char.isWhitespace).reverse.dropWhile
    Char.isWhitespace).reverse)

/-- JavaScript object key assignment on the color map: overwrite in place
if present, append otherwise. -/
def mapSet (m : ColorMap) (k : Nat) (v : String) : ColorMap :=
  if (m.find? (fun p => p.1 == k)).isSome then
    m.map (fun p => if p.1 == k then (k, v) else p)
  else m ++ [(k, v)]

/-- saveBook (lines 192-229), with the network round's end supplied as an
outcome value. -/
def saveBook (o : SaveOutcome) (s : AppState) : AppState :=
  if jsTrim s.formName = "" then
    { s with statusMessage := "Give the book a title before saving." }
  else
    match s.editingId with
    | none =>
      let s := { s with statusMessage := "Adding a new book to the shelf...",
                        httpRequests := s.httpRequests + 1 }
      match o with
      | .success data =>
        resetForm
          { s with books := s.books ++ [data],
                   colorMap := mapSet s.colorMap data.id
                     (gradientFromIndex (nextColorIndex s.colorMap)),
                   statusMessage :=
                     "\"" ++ data.name ++ "\" added. Keep the reading streak alive!" }
      | .httpError => { s with statusMessage := "Request failed. Check the API and try again." }
      | .networkError msg => { s with statusMessage := msg }
    | some eid =>
      let s := { s with statusMessage := "Updating that book note...",
                        httpRequests := s.httpRequests + 1 }
      match o with
      | .success data =>
        let s :=
          match s.books.findIdx? (fun b => b.id == eid) with
          | some i => { s with books := s.books.set i data }
          | none => s
        resetForm { s with statusMessage := "Book note updated. Turn the next page!" }
      | .httpError => { s with statusMessage := "Request failed. Check the API and try again." }
      | .networkError msg => { s with statusMessage := msg }

inductive DeleteOutcome where
  | response (status : Nat)
  | reject (msg : String)
deriving DecidableEq

/-- response.ok: a status in the 2xx range. -/
def responseOk (status : Nat) : Bool :=
  decide (200 ≤ status) && decide (status < 300)

/-- removeBook (lines 237-251). -/
def removeBook (id : Nat) (o : DeleteOutcome) (s : AppState) : AppState :=
  let s := { s with statusMessage := "Sending this book back to the library...",
                    httpRequests := s.httpRequests + 1 }
  match o with
  | .reject msg => { s with statusMessage := msg }
  | .response status =>
    if responseOk status = false ∧ status ≠ 204 then
      { s with statusMessage := "Could not remove the book. Is the API running?" }
    else
      let s := { s with books := s.books.filter (fun b => b.id != id),
                        colorMap := s.colorMap.filter (fun p => p.1 != id),
                        statusMessage := "Book removed. Shelf is a little lighter now." }
      if s.editingId = some id then resetForm s else s

/-! ## Event-loop schedules -/

/-- The events the component's event loop can deliver. -/
inductive Event where
  | mount
  | refresh
  | tick
  | silentDone
  | finalDone
  | delayDone
  | mainDone (o : FetchOutcome)
  | teardown
deriving DecidableEq

/-- step: mount is the onMounted initializeBooks call
(fetchBooks with triggerBannerOnFailure = true), refresh the Refresh-list
button (triggerBannerOnFailure = true, allowImmediateFailure = false). -/
def step (oracle : Nat → Bool) (dataOracle : Nat → List Item) :
    Event → AppState → AppState
  | .mount, s => fetchBooksStart ⟨true, true⟩ s
  | .refresh, s => fetchBooksStart ⟨true, false⟩ s
  | .tick, s => second s
  | .silentDone, s => silentResolve oracle dataOracle s
  | .finalDone, s => if s.finalTimer = true then hideBanner s else s
  | .delayDone, s => delayFire s
  | .mainDone o, s => mainResolve o s
  | .teardown, s => unmount s

/-- A run of the component from setup under a schedule of events. -/
def run (oracle : Nat → Bool) (dataOracle : Nat → List Item)
    (es : List Event) : AppState :=
  es.foldl (fun s e => step oracle dataOracle e s) initialState

/-- A prompt step: the event followed by resolution of any silent fetch
it left in flight (the timing regime where every silent retry answers
within its second, before the next event). -/
def promptStep (oracle : Nat → Bool) (dataOracle : Nat → List Item)
    (e : Event) (s : AppState) : AppState :=
  silentResolve oracle dataOracle (step oracle dataOracle e s)

def promptRun (oracle : Nat → Bool) (dataOracle : Nat → List Item)
    (es : List Event) : AppState :=
  es.foldl (fun s e => promptStep oracle dataOracle e s) initialState

/-- The canonical wake-banner schedule: resolve the kickoff retry, then k
seconds, each tick followed by the resolution of the retry it issued. -/
def wakeTicks : Nat → List Event
  | 0 => [Event.silentDone]
  | k + 1 => wakeTicks k ++ [Event.tick, Event.silentDone]

/-- The banner started without immediate failure (as the 1200 ms kickoff
timeout of the initial load starts it), after k canonical ticks. -/
def wakeRun (oracle : Nat → Bool) (dataOracle : Nat → List Item) (k : Nat) : AppState :=
  (wakeTicks k).foldl (fun s e => step oracle dataOracle e s)
    (startServerWakeBanner false "Unable to load books" initialState)

/-- The oracle under which the first and only successful silent retry is
the Nth attempt (attempt indices count from 0). -/
def oracleFirst (N : Nat) : Nat → Bool := fun n => n + 1 == N

/-- silentResolve specialized to an always-failing oracle; it no longer
mentions the oracles, so closed schedules can be evaluated. -/
def silentResolveFF (s : AppState) : AppState :=
  if s.bannerFetchInFlight = true then
    let s2 := { s with bannerDelayTimer := false, bannerFetchInFlight := false,
                       silentInFlightCount := s.silentInFlightCount - 1 }
    if s2.graceContPending = true then graceCheck { s2 with graceContPending := false }
    else s2
  else s

/-- step specialized to an always-failing silent oracle. -/
def stepFF : Event → AppState → AppState
  | .mount, s => fetchBooksStart ⟨true, true⟩ s
  | .refresh, s => fetchBooksStart ⟨true, false⟩ s
  | .tick, s => second s
  | .silentDone, s => silentResolveFF s
  | .finalDone, s => if s.finalTimer = true then hideBanner s else s
  | .delayDone, s => delayFire s
  | .mainDone o, s => mainResolve o s
  | .teardown, s => unmount s

def wakeRunFF (k : Nat) : AppState :=
  (wakeTicks k).foldl (fun s e => stepFF e s)
    (startServerWakeBanner false "Unable to load books" initialState)

/-- The guard flag is an exact single-slot marker: the number of
unresolved silent fetches is one when the flag is up and zero when it is
down. -/
def InvCount (s : AppState) : Prop :=
  s.silentInFlightCount = if s.bannerFetchInFlight = true then 1 else 0

/-- The two clauses that survive arbitrary interleavings: a hidden banner
is idle, and a scheduled countdown or grace interval implies a visible
banner. -/
def InvBC (s : AppState) : Prop :=
  (s.bannerVisible = false → s.bannerPhase = "") ∧
  (s.countdownTimer = true → s.bannerVisible = true) ∧
  (s.graceTimer = true → s.bannerVisible = true)

/-- The strengthened invariant used between a prompt step's event and its
silent resolution: the claim's countdown clause and idle clause, plus the
auxiliary facts that make them inductive (timers only while visible, the
grace interval and any pending grace continuation only with a null
countdown, a pending grace continuation only while its fetch is in
flight). -/
def InvMid (s : AppState) : Prop :=
  (s.bannerCountdown ≠ none → s.bannerPhase = "countdown") ∧
  (s.bannerVisible = false → s.bannerPhase = "") ∧
  (s.countdownTimer = true → s.bannerVisible = true) ∧
  (s.graceTimer = true → s.bannerVisible = true) ∧
  (s.graceTimer = true → s.bannerCountdown = none) ∧
  (s.graceContPending = true → s.bannerFetchInFlight = true) ∧
  (s.graceContPending = true → s.bannerCountdown = none)

/-- The invariant at the rest points of a prompt schedule: no silent
fetch in flight and no pending grace continuation. -/
def InvP (s : AppState) : Prop :=
  InvMid s ∧ s.bannerFetchInFlight = false ∧ s.graceContPending = false

/-- A mid-countdown state whose retry guard flag is up, for the C3
witness. -/
def guardUpState : AppState :=
  { initialState with bannerFetchInFlight := true, countdownTimer := true,
                      bannerCountdown := some 5 }

/-- A real-time-feasible schedule breaking the countdown clause of the
claimed invariant: the initial load hangs; the kickoff delay starts the
banner; countdown and grace elapse with failing retries resolving within
their second, except the 10th grace tick's retry, which hangs with the
grace continuation pending; the initial load then succeeds (hiding the
banner); a refresh fails fast with an HTTP error and restarts the banner
in countdown; finally the hung retry fails, and the stale grace
continuation fires: phase becomes failed while the new countdown is 25. -/
def esBad : List Event :=
  [Event.mount, Event.delayDone, Event.silentDone]
    ++ (List.replicate 24 [Event.tick, Event.silentDone]).flatten
    ++ [Event.tick]
    ++ (List.replicate 9 [Event.tick, Event.silentDone]).flatten
    ++ [Event.tick, Event.mainDone (FetchOutcome.success []), Event.refresh,
        Event.mainDone FetchOutcome.httpError, Event.silentDone]

theorem lookupColor_isSome_iff (m : ColorMap) (id : Nat) :
    (lookupColor m id).isSome = true ↔ id ∈ m.map Prod.fst := by
  induction m with
  | nil => simp [lookupColor]
  | cons p m ih =>
    by_cases h : p.1 = id
    · simp [lookupColor, List.find?, h]
    · have hb : (p.1 == id) = false := by simpa using h
      simp only [lookupColor, List.find?, hb, List.map_cons, List.mem_cons]
      rw [← lookupColor]
      rw [ih]
      constructor
      · exact fun hm => Or.inr hm
      · rintro (hm | hm)
        · exact absurd hm.symm h
        · exact hm

theorem assignColorsAux_eq (items : List Item) :
    ∀ (m : ColorMap) (k : Nat),
      assignColorsAux m k items = m ++ tagFrom k (freshKeys (m.map Prod.fst) items) := by
  induction items with
  | nil => intro m k; simp [assignColorsAux, freshKeys, tagFrom]
  | cons item rest ih =>
    intro m k
    simp only [assignColorsAux, freshKeys]
    by_cases h : item.id ∈ m.map Prod.fst
    · have hs : (lookupColor m item.id).isSome = true := (lookupColor_isSome_iff m item.id).2 h
      rw [if_pos hs, if_pos h]
      exact ih m k
    · have hs : ¬ (lookupColor m item.id).isSome = true :=
        fun hc => h ((lookupColor_isSome_iff m item.id).1 hc)
      rw [if_neg hs, if_neg h, ih (m ++ [(item.id, gradientFromIndex k)]) (k + 1)]
      simp only [List.map_append, List.map_cons, List.map_nil, tagFrom]
      simp [List.append_assoc]

theorem lookupColor_append_left (m t : ColorMap) (id : Nat) (g : String)
    (h : lookupColor m id = some g) : lookupColor (m ++ t) id = some g := by
  induction m with
  | nil => simp [lookupColor] at h
  | cons p m ih =>
    by_cases hp : (p.1 == id) = true
    · simp only [lookupColor, List.cons_append, List.find?, hp] at h ⊢
      exact h
    · have hb : (p.1 == id) = false := by simpa using hp
      simp only [lookupColor, List.cons_append, List.find?, hb] at h ⊢
      rw [← lookupColor] at h ⊢
      exact ih h

theorem step_false (dataOracle : Nat → List Item) :
    step (fun _ => false) dataOracle = stepFF := by
  funext e s
  cases e <;> rfl

theorem wakeRun_false (dataOracle : Nat → List Item) (k : Nat) :
    wakeRun (fun _ => false) dataOracle k = wakeRunFF k := by
  unfold wakeRun wakeRunFF
  have h : (fun (s : AppState) (e : Event) => step (fun _ => false) dataOracle e s) =
      fun s e => stepFF e s := by
    funext s e
    rw [step_false]
  rw [h]

/-! ## Equations for silentResolve -/

theorem silentResolve_ok (oracle : Nat → Bool) (d : Nat → List Item) {s : AppState}
    (hf : s.bannerFetchInFlight = true) (hok : oracle s.silentIdx = true) :
    silentResolve oracle d s =
      { s with books := d s.silentIdx,
               colorMap := assignColors s.colorMap (d s.silentIdx),
               statusMessage := "Reading list refreshed. Ready for more stories!",
               bannerVisible := false, bannerCountdown := none, bannerMessage := "",
               bannerPhase := "", countdownTimer := false, graceTimer := false,
               finalTimer := false, bannerDelayTimer := false,
               bannerFetchInFlight := false,
               silentInFlightCount := s.silentInFlightCount - 1,
               graceContPending := false } := by
  by_cases hc : s.graceContPending = true <;>
    simp [silentResolve, hideBanner, clearBannerTimers, graceCheck, hf, hok, hc]

theorem silentResolve_fail (oracle : Nat → Bool) (d : Nat → List Item) {s : AppState}
    (hf : s.bannerFetchInFlight = true) (hok : oracle s.silentIdx = false) :
    silentResolve oracle d s =
      (if s.graceContPending = true then
        graceCheck { s with bannerDelayTimer := false, bannerFetchInFlight := false,
                            silentInFlightCount := s.silentInFlightCount - 1,
                            graceContPending := false }
       else
        { s with bannerDelayTimer := false, bannerFetchInFlight := false,
                 silentInFlightCount := s.silentInFlightCount - 1 }) := by
  by_cases hc : s.graceContPending = true <;> simp [silentResolve, hf, hok, hc]

theorem silentResolve_idle (oracle : Nat → Bool) (d : Nat → List Item) {s : AppState}
    (hf : s.bannerFetchInFlight = false) : silentResolve oracle d s = s := by
  simp [silentResolve, hf]

/-! ## The single-slot in-flight guard -/

theorem invCount_tryFetch {s : AppState} (h : InvCount s) :
    InvCount (tryFetchDuringBanner s) := by
  unfold InvCount tryFetchDuringBanner at *
  by_cases hf : s.bannerFetchInFlight = true
  · simpa [hf] using h
  · simp only [hf] at h ⊢
    simp at h
    simp [h]

theorem invCount_hideBanner {s : AppState} (h : InvCount s) : InvCount (hideBanner s) := by
  simpa [InvCount, hideBanner, clearBannerTimers] using h

theorem invCount_graceCheck {s : AppState} (h : InvCount s) : InvCount (graceCheck s) := by
  unfold graceCheck
  split
  · simpa [InvCount] using h
  · exact h

theorem invCount_startGrace {s : AppState} (h : InvCount s) :
    InvCount (startGracePeriod s) := by
  simpa [InvCount, startGracePeriod] using h

theorem invCount_start (imm : Bool) (msg : String) {s : AppState} (h : InvCount s) :
    InvCount (startServerWakeBanner imm msg s) := by
  unfold startServerWakeBanner
  dsimp only
  split
  · simpa [InvCount] using h
  · have h2 := invCount_tryFetch (s :=
      { s with bannerVisible := true, bannerFailureMessage := msg,
               bannerPhase := "countdown",
               bannerMessage := "Starting server, it usually takes",
               bannerCountdown := some 25 }) (by simpa [InvCount] using h)
    simpa [InvCount] using h2

theorem invCount_countdownTick {s : AppState} (h : InvCount s) :
    InvCount (countdownTick s) := by
  unfold countdownTick
  split
  · split
    · exact invCount_tryFetch (by simpa [InvCount] using h)
    · exact invCount_startGrace (by simpa [InvCount] using h)
  · exact h

theorem invCount_graceTick {s : AppState} (h : InvCount s) : InvCount (graceTick s) := by
  unfold graceTick
  split
  · dsimp only
    split
    · exact invCount_graceCheck (by simpa [InvCount] using h)
    · have h2 := invCount_tryFetch (s := { s with graceSecondsLeft := s.graceSecondsLeft - 1 })
        (by simpa [InvCount] using h)
      simpa [InvCount] using h2
  · exact h

theorem invCount_silentResolve {oracle : Nat → Bool} {d : Nat → List Item} {s : AppState}
    (h : InvCount s) : InvCount (silentResolve oracle d s) := by
  unfold silentResolve
  by_cases hf : s.bannerFetchInFlight = true
  · rw [if_pos hf]
    have hcnt : s.silentInFlightCount = 1 := by simpa [InvCount, hf] using h
    by_cases hok : oracle s.silentIdx = true <;> by_cases hc : s.graceContPending = true <;>
      · simp [InvCount, hideBanner, clearBannerTimers, graceCheck, hcnt, hc, hok]
        try split <;> simp
  · rw [if_neg hf]
    exact h

theorem invCount_delayFire {s : AppState} (h : InvCount s) : InvCount (delayFire s) := by
  unfold delayFire
  split
  · dsimp only
    split
    · have h2 := invCount_start false "Unable to load books" h
      simpa [InvCount] using h2
    · simpa [InvCount] using h
  · exact h

theorem invCount_fetchStart {p : MainParams} {s : AppState} (h : InvCount s) :
    InvCount (fetchBooksStart p s) := by
  unfold fetchBooksStart
  split
  · exact h
  · dsimp only
    split <;> simpa [InvCount] using h

theorem invCount_mainResolve {o : FetchOutcome} {s : AppState} (h : InvCount s) :
    InvCount (mainResolve o s) := by
  unfold mainResolve
  split
  · exact h
  · cases o with
    | success data =>
      dsimp only
      have h2 := invCount_hideBanner (s :=
        { s with books := data, colorMap := assignColors s.colorMap data,
                 statusMessage := "Reading list refreshed. Ready for more stories!",
                 mainPending := none }) (by simpa [InvCount] using h)
      simpa [InvCount] using h2
    | httpError =>
      dsimp only
      split
      · unfold startServerWakeBanner tryFetchDuringBanner
        dsimp only
        split
        · simpa [InvCount] using h
        · split
          · simpa [InvCount] using h
          · rename_i hflag
            have hf : s.bannerFetchInFlight = false := by simpa using hflag
            have h0 : s.silentInFlightCount = 0 := by simpa [InvCount, hf] using h
            simp [InvCount, h0]
      · simpa [InvCount] using h
    | networkError msg =>
      dsimp only
      split
      · unfold startServerWakeBanner tryFetchDuringBanner
        dsimp only
        split
        · simpa [InvCount] using h
        · split
          · simpa [InvCount] using h
          · rename_i hflag
            have hf : s.bannerFetchInFlight = false := by simpa using hflag
            have h0 : s.silentInFlightCount = 0 := by simpa [InvCount, hf] using h
            simp [InvCount, h0]
      · simpa [InvCount] using h

theorem invCount_step (oracle : Nat → Bool) (d : Nat → List Item) (e : Event)
    {s : AppState} (h : InvCount s) : InvCount (step oracle d e s) := by
  cases e with
  | mount => exact invCount_fetchStart h
  | refresh => exact invCount_fetchStart h
  | tick =>
    show InvCount (second s)
    unfold second
    split
    · exact invCount_countdownTick h
    · split
      · exact invCount_graceTick h
      · exact h
  | silentDone => exact invCount_silentResolve h
  | finalDone =>
    show InvCount (if s.finalTimer = true then hideBanner s else s)
    split
    · exact invCount_hideBanner h
    · exact h
  | delayDone => exact invCount_delayFire h
  | mainDone o => exact invCount_mainResolve h
  | teardown => simpa [InvCount, unmount, clearBannerTimers] using h

theorem invCount_run (oracle : Nat → Bool) (d : Nat → List Item) (es : List Event) :
    InvCount (run oracle d es) := by
  suffices h : ∀ s, InvCount s → InvCount (es.foldl (fun s e => step oracle d e s) s) from
    h initialState (by simp [InvCount, initialState])
  induction es with
  | nil => exact fun s hs => hs
  | cons e es ih => exact fun s hs => ih _ (invCount_step oracle d e hs)

/-! ## Banner-state invariants over all schedules -/

theorem invBC_congr {s t : AppState}
    (e1 : s.bannerVisible = t.bannerVisible) (e2 : s.bannerPhase = t.bannerPhase)
    (e3 : s.countdownTimer = t.countdownTimer) (e4 : s.graceTimer = t.graceTimer)
    (h : InvBC s) : InvBC t := by
  unfold InvBC at *
  rw [← e1, ← e2, ← e3, ← e4]
  exact h

theorem invBC_hideBanner (s : AppState) : InvBC (hideBanner s) := by
  simp [InvBC, hideBanner, clearBannerTimers]

theorem start_visible (imm : Bool) (msg : String) (s : AppState) :
    (startServerWakeBanner imm msg s).bannerVisible = true := by
  unfold startServerWakeBanner tryFetchDuringBanner
  dsimp only
  split
  · rfl
  · split <;> rfl

theorem invBC_start (imm : Bool) (msg : String) (s : AppState) :
    InvBC (startServerWakeBanner imm msg s) :=
  ⟨fun hv => absurd hv (by simp [start_visible]),
   fun _ => start_visible imm msg s,
   fun _ => start_visible imm msg s⟩

theorem invBC_tryFetch {s : AppState} (h : InvBC s) : InvBC (tryFetchDuringBanner s) := by
  unfold tryFetchDuringBanner
  split
  · exact h
  · exact invBC_congr rfl rfl rfl rfl h

theorem invBC_graceCheck {s : AppState} (h : InvBC s) : InvBC (graceCheck s) := by
  unfold graceCheck
  split
  · rename_i hcond
    refine ⟨fun hv => absurd hv (by simp [hcond.2]), fun _ => hcond.2,
            fun hgt => absurd hgt (by simp)⟩
  · exact h

theorem invBC_startGrace {s : AppState} (hv : s.bannerVisible = true) :
    InvBC (startGracePeriod s) := by
  unfold startGracePeriod
  exact ⟨fun hv2 => absurd hv2 (by simp [hv]), fun _ => hv, fun _ => hv⟩

theorem invBC_countdownTick {s : AppState} (h : InvBC s) : InvBC (countdownTick s) := by
  unfold countdownTick
  split
  · rename_i hct
    have hv : s.bannerVisible = true := h.2.1 hct
    split
    · exact invBC_tryFetch (invBC_congr rfl rfl rfl rfl h)
    · exact invBC_startGrace hv
  · exact h

theorem invBC_graceTick {s : AppState} (h : InvBC s) : InvBC (graceTick s) := by
  unfold graceTick
  split
  · dsimp only
    split
    · exact invBC_graceCheck (invBC_congr rfl rfl rfl rfl h)
    · exact invBC_congr rfl rfl rfl rfl (invBC_tryFetch (invBC_congr rfl rfl rfl rfl h))
  · exact h

theorem invBC_silentResolve {oracle : Nat → Bool} {d : Nat → List Item} {s : AppState}
    (h : InvBC s) : InvBC (silentResolve oracle d s) := by
  by_cases hf : s.bannerFetchInFlight = true
  · by_cases hok : oracle s.silentIdx = true
    · rw [silentResolve_ok oracle d hf hok]
      exact ⟨fun _ => rfl, fun hct => absurd hct (by simp), fun hgt => absurd hgt (by simp)⟩
    · rw [silentResolve_fail oracle d hf (by simpa using hok)]
      split
      · exact invBC_graceCheck (invBC_congr rfl rfl rfl rfl h)
      · exact invBC_congr rfl rfl rfl rfl h
  · rw [silentResolve_idle oracle d (by simpa using hf)]
    exact h

theorem invBC_delayFire {s : AppState} (h : InvBC s) : InvBC (delayFire s) := by
  unfold delayFire
  split
  · dsimp only
    split
    · exact invBC_congr rfl rfl rfl rfl (invBC_start false "Unable to load books" s)
    · exact invBC_congr rfl rfl rfl rfl h
  · exact h

theorem invBC_fetchStart (p : MainParams) {s : AppState} (h : InvBC s) :
    InvBC (fetchBooksStart p s) := by
  unfold fetchBooksStart
  split
  · exact h
  · dsimp only
    split
    · exact invBC_congr rfl rfl rfl rfl h
    · exact invBC_congr rfl rfl rfl rfl h

theorem invBC_mainResolve (o : FetchOutcome) {s : AppState} (h : InvBC s) :
    InvBC (mainResolve o s) := by
  unfold mainResolve
  split
  · exact h
  · cases o with
    | success data =>
      dsimp only
      exact invBC_congr rfl rfl rfl rfl (invBC_hideBanner
        { s with mainPending := none, books := data,
                 colorMap := assignColors s.colorMap data,
                 statusMessage := "Reading list refreshed. Ready for more stories!" })
    | httpError =>
      dsimp only
      split
      · exact invBC_congr rfl rfl rfl rfl (invBC_start _ _ _)
      · exact invBC_congr rfl rfl rfl rfl h
    | networkError msg =>
      dsimp only
      split
      · exact invBC_congr rfl rfl rfl rfl (invBC_start _ _ _)
      · exact invBC_congr rfl rfl rfl rfl h

theorem invBC_clear {s : AppState} (h : InvBC s) : InvBC (clearBannerTimers s) :=
  ⟨fun hv => h.1 hv, fun hct => absurd hct (by simp [clearBannerTimers]),
   fun hgt => absurd hgt (by simp [clearBannerTimers])⟩

theorem invBC_step (oracle : Nat → Bool) (d : Nat → List Item) (e : Event) {s : AppState}
    (h : InvBC s) : InvBC (step oracle d e s) := by
  cases e with
  | mount => exact invBC_fetchStart _ h
  | refresh => exact invBC_fetchStart _ h
  | tick =>
    show InvBC (second s)
    unfold second
    split
    · exact invBC_countdownTick h
    · split
      · exact invBC_graceTick h
      · exact h
  | silentDone => exact invBC_silentResolve h
  | finalDone =>
    show InvBC (if s.finalTimer = true then hideBanner s else s)
    split
    · exact invBC_hideBanner s
    · exact h
  | delayDone => exact invBC_delayFire h
  | mainDone o => exact invBC_mainResolve o h
  | teardown => exact invBC_clear h

theorem invBC_run (oracle : Nat → Bool) (d : Nat → List Item) (es : List Event) :
    InvBC (run oracle d es) := by
  suffices h : ∀ s, InvBC s → InvBC (es.foldl (fun s e => step oracle d e s) s) from
    h initialState (by simp [InvBC, initialState])
  induction es with
  | nil => exact fun s hs => hs
  | cons e es ih => exact fun s hs => ih _ (invBC_step oracle d e hs)

/-! ## The full banner invariant under prompt schedules -/

theorem invMid_congr {s t : AppState}
    (e1 : s.bannerCountdown = t.bannerCountdown) (e2 : s.bannerPhase = t.bannerPhase)
    (e3 : s.bannerVisible = t.bannerVisible) (e4 : s.countdownTimer = t.countdownTimer)
    (e5 : s.graceTimer = t.graceTimer) (e6 : s.graceContPending = t.graceContPending)
    (e7 : s.bannerFetchInFlight = t.bannerFetchInFlight) (h : InvMid s) : InvMid t := by
  unfold InvMid at *
  rw [← e1, ← e2, ← e3, ← e4, ← e5, ← e6, ← e7]
  exact h

theorem countdown_isSome {c : Option Int} (h : c.getD 0 > 1) : c = some (c.getD 0) := by
  cases c with
  | none => norm_num at h
  | some x => rfl

theorem invMid_hide {s : AppState}
    (h6 : s.graceContPending = true → s.bannerFetchInFlight = true) :
    InvMid (hideBanner s) := by
  unfold hideBanner clearBannerTimers
  exact ⟨fun hc => absurd rfl hc, fun _ => rfl, fun hct => absurd hct (by simp),
         fun hgt => absurd hgt (by simp), fun _ => rfl, h6, fun _ => rfl⟩

theorem invMid_fetchStart (p : MainParams) {s : AppState} (h : InvMid s) :
    InvMid (fetchBooksStart p s) := by
  unfold fetchBooksStart
  split
  · exact h
  · dsimp only
    split
    · exact invMid_congr rfl rfl rfl rfl rfl rfl rfl h
    · exact invMid_congr rfl rfl rfl rfl rfl rfl rfl h

theorem invMid_start (imm : Bool) (msg : String) {s : AppState}
    (hgt : s.graceTimer = false) (hcp : s.graceContPending = false) :
    InvMid (startServerWakeBanner imm msg s) := by
  unfold startServerWakeBanner tryFetchDuringBanner
  dsimp only
  split
  · exact ⟨fun hc => absurd rfl hc, fun hv => absurd hv (by simp), fun _ => rfl, fun _ => rfl,
           fun hg => absurd hg (by simp [hgt]), fun hc2 => absurd hc2 (by simp [hcp]),
           fun hc2 => absurd hc2 (by simp [hcp])⟩
  · split
    · exact ⟨fun _ => rfl, fun hv => absurd hv (by simp), fun _ => rfl, fun _ => rfl,
             fun hg => absurd hg (by simp [hgt]), fun hc2 => absurd hc2 (by simp [hcp]),
             fun hc2 => absurd hc2 (by simp [hcp])⟩
    · exact ⟨fun _ => rfl, fun hv => absurd hv (by simp), fun _ => rfl, fun _ => rfl,
             fun hg => absurd hg (by simp [hgt]), fun _ => rfl,
             fun hc2 => absurd hc2 (by simp [hcp])⟩

theorem invMid_startGrace {s : AppState} (hv : s.bannerVisible = true)
    (hcd : s.bannerCountdown = none) (hcp : s.graceContPending = false) :
    InvMid (startGracePeriod s) := by
  unfold startGracePeriod
  exact ⟨fun hc => absurd hcd hc, fun hv2 => absurd hv2 (by simp [hv]), fun _ => hv,
         fun _ => hv, fun _ => hcd, fun hc2 => absurd hc2 (by simp [hcp]),
         fun hc2 => absurd hc2 (by simp [hcp])⟩

theorem invMid_step (oracle : Nat → Bool) (d : Nat → List Item) (e : Event) {s : AppState}
    (h : InvP s) : InvMid (step oracle d e s) := by
  obtain ⟨hm, hflag, hcp⟩ := h
  cases e with
  | mount => exact invMid_fetchStart _ hm
  | refresh => exact invMid_fetchStart _ hm
  | tick =>
    show InvMid (second s)
    unfold second
    split
    · rename_i hct
      have hv : s.bannerVisible = true := hm.2.2.1 hct
      unfold countdownTick
      rw [if_pos hct]
      split
      · rename_i hgd
        have hcd : s.bannerCountdown = some (s.bannerCountdown.getD 0) := countdown_isSome hgd
        have hph : s.bannerPhase = "countdown" := hm.1 (by rw [hcd]; simp)
        have hgt : s.graceTimer = false := by
          by_cases hg : s.graceTimer = true
          · have hnone := hm.2.2.2.2.1 hg
            rw [hnone] at hcd
            simp at hcd
          · simpa using hg
        unfold tryFetchDuringBanner
        split
        · rename_i hfl
          exact absurd hfl (by simp [hflag])
        · exact ⟨fun _ => hph, fun hv2 => absurd hv2 (by simp [hv]), fun _ => hv, fun _ => hv,
                 fun hg => absurd hg (by simp [hgt]), fun hc2 => absurd hc2 (by simp [hcp]),
                 fun hc2 => absurd hc2 (by simp [hcp])⟩
      · exact invMid_startGrace hv rfl hcp
    · split
      · rename_i hnc hgt
        have hv : s.bannerVisible = true := hm.2.2.2.1 hgt
        have hcdnone : s.bannerCountdown = none := hm.2.2.2.2.1 hgt
        unfold graceTick
        rw [if_pos hgt]
        dsimp only
        split
        · rename_i hfl
          exact absurd hfl (by simp [hflag])
        · unfold tryFetchDuringBanner
          split
          · rename_i hfl2
            exact absurd hfl2 (by simp [hflag])
          · exact ⟨fun hcne => absurd hcdnone hcne, fun hv2 => absurd hv2 (by simp [hv]),
                   fun _ => hv, fun _ => hv, fun _ => hcdnone, fun _ => rfl,
                   fun _ => hcdnone⟩
      · exact hm
  | silentDone =>
    show InvMid (silentResolve oracle d s)
    rw [silentResolve_idle oracle d hflag]
    exact hm
  | finalDone =>
    show InvMid (if s.finalTimer = true then hideBanner s else s)
    split
    · exact invMid_hide hm.2.2.2.2.2.1
    · exact hm
  | delayDone =>
    show InvMid (delayFire s)
    unfold delayFire
    split
    · dsimp only
      split
      · rename_i hcondv
        have hgt : s.graceTimer = false := by
          by_cases hg : s.graceTimer = true
          · exact absurd (hm.2.2.2.1 hg) (by simp [hcondv.1])
          · simpa using hg
        exact invMid_congr rfl rfl rfl rfl rfl rfl rfl
          (invMid_start false "Unable to load books" hgt hcp)
      · exact invMid_congr rfl rfl rfl rfl rfl rfl rfl hm
    · exact hm
  | mainDone o =>
    show InvMid (mainResolve o s)
    unfold mainResolve
    split
    · exact hm
    · cases o with
      | success data =>
        dsimp only
        have hh := invMid_hide
          (s := { s with
                    mainPending := none, books := data,
                    colorMap := assignColors s.colorMap data,
                    statusMessage := "Reading list refreshed. Ready for more stories!" })
          (fun hc2 => absurd hc2 (by simp [hcp]))
        exact invMid_congr rfl rfl rfl rfl rfl rfl rfl hh
      | httpError =>
        dsimp only
        split
        · rename_i hcond
          have hgt : s.graceTimer = false := by
            by_cases hg : s.graceTimer = true
            · have hv := hm.2.2.2.1 hg
              have hv2 := hcond.2
              simp [hv] at hv2
            · simpa using hg
          exact invMid_congr rfl rfl rfl rfl rfl rfl rfl (invMid_start _ _ hgt hcp)
        · exact invMid_congr rfl rfl rfl rfl rfl rfl rfl hm
      | networkError msg =>
        dsimp only
        split
        · rename_i hcond
          have hgt : s.graceTimer = false := by
            by_cases hg : s.graceTimer = true
            · have hv := hm.2.2.2.1 hg
              have hv2 := hcond.2
              simp [hv] at hv2
            · simpa using hg
          exact invMid_congr rfl rfl rfl rfl rfl rfl rfl (invMid_start _ _ hgt hcp)
        · exact invMid_congr rfl rfl rfl rfl rfl rfl rfl hm
  | teardown =>
    show InvMid (unmount s)
    unfold unmount clearBannerTimers
    exact ⟨fun hc => hm.1 hc, fun hv => hm.2.1 hv, fun hct => absurd hct (by simp),
           fun hgt => absurd hgt (by simp), fun hgt => absurd hgt (by simp),
           hm.2.2.2.2.2.1, hm.2.2.2.2.2.2⟩

theorem invP_silentResolve (oracle : Nat → Bool) (d : Nat → List Item) {s : AppState}
    (h : InvMid s) : InvP (silentResolve oracle d s) := by
  by_cases hf : s.bannerFetchInFlight = true
  · by_cases hok : oracle s.silentIdx = true
    · rw [silentResolve_ok oracle d hf hok]
      exact ⟨⟨fun hc => absurd rfl hc, fun _ => rfl, fun hct => absurd hct (by simp),
              fun hgt => absurd hgt (by simp), fun _ => rfl,
              fun hc2 => absurd hc2 (by simp), fun _ => rfl⟩, rfl, rfl⟩
    · rw [silentResolve_fail oracle d hf (by simpa using hok)]
      by_cases hc : s.graceContPending = true
      · rw [if_pos hc]
        have hcd : s.bannerCountdown = none := h.2.2.2.2.2.2 hc
        unfold graceCheck
        split
        · rename_i hcond
          have hv2 : s.bannerVisible = true := hcond.2
          exact ⟨⟨fun hcne => absurd hcd hcne, fun hv => absurd hv (by simp [hv2]),
                  fun _ => hv2, fun hg => absurd hg (by simp),
                  fun _ => hcd, fun hc2 => absurd hc2 (by simp), fun _ => hcd⟩, rfl, rfl⟩
        · exact ⟨⟨h.1, h.2.1, h.2.2.1, h.2.2.2.1, h.2.2.2.2.1,
                  fun hc2 => absurd hc2 (by simp), fun hc2 => absurd hc2 (by simp)⟩, rfl, rfl⟩
      · rw [if_neg hc]
        have hc0 : s.graceContPending = false := by simpa using hc
        exact ⟨⟨h.1, h.2.1, h.2.2.1, h.2.2.2.1, h.2.2.2.2.1,
                fun hc2 => absurd hc2 (by simp [hc0]),
                fun hc2 => absurd hc2 (by simp [hc0])⟩, rfl, hc0⟩
  · have hf0 : s.bannerFetchInFlight = false := by simpa using hf
    rw [silentResolve_idle oracle d hf0]
    refine ⟨h, hf0, ?_⟩
    by_cases hcc : s.graceContPending = true
    · exact absurd (h.2.2.2.2.2.1 hcc) (by simp [hf0])
    · simpa using hcc

theorem invP_promptStep (oracle : Nat → Bool) (d : Nat → List Item) (e : Event)
    {s : AppState} (h : InvP s) : InvP (promptStep oracle d e s) :=
  invP_silentResolve oracle d (invMid_step oracle d e h)

theorem invP_promptRun (oracle : Nat → Bool) (d : Nat → List Item) (es : List Event) :
    InvP (promptRun oracle d es) := by
  suffices h : ∀ s, InvP s → InvP (es.foldl (fun s e => promptStep oracle d e s) s) from
    h initialState (by constructor <;> simp [InvMid, initialState, InvP])
  induction es with
  | nil => exact fun s hs => hs
  | cons e es ih => exact fun s hs => ih _ (invP_promptStep oracle d e hs)

/-! ## Claims -/

set_option maxRecDepth 100000

set_option maxHeartbeats 2000000

/-- C1: with a fetch that never succeeds, the banner started without
immediate failure shows the countdown phase for ticks 0-24 with the
displayed countdown starting at 25, the grace phase for ticks 25-34, and
after 35 ticks the failed phase displaying the failure message with the
3-second final timeout pending; that timeout's firing resets the banner
to hidden/idle. -/
theorem claim_C1 (oracle : Nat → Bool) (dataOracle : Nat → List Item)
    (h : ∀ n, oracle n = false) :
    (∀ k, k < 25 →
        (wakeRun oracle dataOracle k).bannerPhase = "countdown" ∧
        (wakeRun oracle dataOracle k).bannerCountdown = some (25 - (k : Int))) ∧
    (∀ k, k < 35 → 25 ≤ k → (wakeRun oracle dataOracle k).bannerPhase = "grace") ∧
    ((wakeRun oracle dataOracle 35).bannerPhase = "failed" ∧
     (wakeRun oracle dataOracle 35).bannerVisible = true ∧
     (wakeRun oracle dataOracle 35).bannerMessage = "Unable to load books" ∧
     (wakeRun oracle dataOracle 35).bannerMessage =
       (wakeRun oracle dataOracle 35).bannerFailureMessage ∧
     (wakeRun oracle dataOracle 35).bannerCountdown = none ∧
     (wakeRun oracle dataOracle 35).finalTimer = true) ∧
    ((step oracle dataOracle Event.finalDone (wakeRun oracle dataOracle 35)).bannerVisible
        = false ∧
     (step oracle dataOracle Event.finalDone (wakeRun oracle dataOracle 35)).bannerPhase = "" ∧
     (step oracle dataOracle Event.finalDone (wakeRun oracle dataOracle 35)).bannerCountdown
        = none) := by
  have ho : oracle = fun _ => false := funext h
  subst ho
  simp only [wakeRun_false, step_false]
  decide

/-- C1 witness with the constantly failing oracle. -/
theorem claim_C1_witness :
    (wakeRun (fun _ => false) (fun _ => []) 35).bannerPhase = "failed" ∧
    (stepFF Event.finalDone (wakeRun (fun _ => false) (fun _ => []) 35)).bannerPhase = "" := by
  have h := claim_C1 (fun _ => false) (fun _ => []) (fun _ => rfl)
  refine ⟨h.2.2.1.1, ?_⟩
  have h2 := h.2.2.2.2.1
  rw [step_false] at h2
  exact h2

/-- C2: resolving a successful silent retry in any state - so in any
phase, at any tick - hides the banner at once (visible false, phase idle,
countdown null) and cancels the countdown, grace and final timers; in
particular, under the canonical schedule where the first success is the
Nth attempt with N at most 25, the banner is hidden within N - 1 ticks. -/
theorem claim_C2 :
    (∀ (oracle : Nat → Bool) (dataOracle : Nat → List Item) (s : AppState),
        s.bannerFetchInFlight = true → oracle s.silentIdx = true →
        (silentResolve oracle dataOracle s).bannerVisible = false ∧
        (silentResolve oracle dataOracle s).bannerPhase = "" ∧
        (silentResolve oracle dataOracle s).bannerCountdown = none ∧
        (silentResolve oracle dataOracle s).countdownTimer = false ∧
        (silentResolve oracle dataOracle s).graceTimer = false ∧
        (silentResolve oracle dataOracle s).finalTimer = false) ∧
    (∀ N, N < 26 → 1 ≤ N →
        (wakeRun (oracleFirst N) (fun _ => []) (N - 1)).bannerVisible = false ∧
        (wakeRun (oracleFirst N) (fun _ => []) (N - 1)).bannerPhase = "" ∧
        (wakeRun (oracleFirst N) (fun _ => []) (N - 1)).bannerCountdown = none ∧
        (wakeRun (oracleFirst N) (fun _ => []) (N - 1)).countdownTimer = false ∧
        (wakeRun (oracleFirst N) (fun _ => []) (N - 1)).graceTimer = false ∧
        (wakeRun (oracleFirst N) (fun _ => []) (N - 1)).finalTimer = false) := by
  constructor
  · intro oracle dataOracle s h1 h2
    by_cases hc : s.graceContPending = true <;>
      simp [silentResolve, hideBanner, clearBannerTimers, graceCheck, h1, h2, hc]
  · decide

/-- C2 witness: a successful resolution in the grace phase hides the
banner, and under the first-success-at-attempt-3 oracle the banner is
hidden after 2 ticks. -/
theorem claim_C2_witness :
    (silentResolve (fun _ => true) (fun _ => [])
      { initialState with bannerFetchInFlight := true, bannerVisible := true,
                          bannerPhase := "grace", graceTimer := true }).bannerVisible = false ∧
    (wakeRun (oracleFirst 3) (fun _ => []) 2).bannerVisible = false :=
  ⟨(claim_C2.1 (fun _ => true) (fun _ => [])
      { initialState with bannerFetchInFlight := true, bannerVisible := true,
                          bannerPhase := "grace", graceTimer := true } rfl rfl).1,
   (claim_C2.2 3 (by decide) (by decide)).1⟩

/-- C9: The gradient generator is a deterministic function of the
assignment index, equal to the spec's formula (hue (i * 137.508) mod 360,
offsets 22 and 44 mod 360, fixed saturation/lightness); assignColors
appends gradients for the not-yet-assigned ids in first-seen order at
consecutive indices starting at the current map size, and an id already
assigned keeps its gradient (never reassigned or recomputed). -/
theorem claim_C9 :
    (∀ i : Nat, gradientFromIndex i = gradientSpec i) ∧
    (∀ (m : ColorMap) (items : List Item),
        assignColors m items = m ++ tagFrom m.length (freshKeys (m.map Prod.fst) items)) ∧
    (∀ (m : ColorMap) (items : List Item) (id : Nat) (g : String),
        lookupColor m id = some g → lookupColor (assignColors m items) id = some g) := by
  have heq : ∀ (m : ColorMap) (items : List Item),
      assignColors m items = m ++ tagFrom m.length (freshKeys (m.map Prod.fst) items) :=
    fun m items => assignColorsAux_eq items m m.length
  refine ⟨?_, heq, ?_⟩
  · intro i
    have h44 : (22 : ℚ) * 2 = 44 := by norm_num
    simp only [gradientFromIndex, gradientSpec, GOLDEN_ANGLE, BASE_SATURATION,
      BASE_LIGHTNESS, GRADIENT_STEP, h44]
  · intro m items id g h
    rw [heq m items]
    exact lookupColor_append_left m _ id g h

/-- C9 witness: an already-assigned id keeps its gradient across a later
assignColors call. -/
theorem claim_C9_witness :
    lookupColor (assignColors [(7, "gradient")] []) 7 = some "gradient" :=
  claim_C9.2.2 [(7, "gradient")] [] 7 "gradient" rfl

/-- C8: saving with an empty or whitespace-only title only sets the
status message: no request is issued (the request counter is unchanged)
and the book list, the color map, the editing state and the form are left
as they were; saveBook is a total function, so nothing propagates. -/
theorem claim_C8 (o : SaveOutcome) (s : AppState) (h : jsTrim s.formName = "") :
    saveBook o s = { s with statusMessage := "Give the book a title before saving." } ∧
    (saveBook o s).books = s.books ∧
    (saveBook o s).colorMap = s.colorMap ∧
    (saveBook o s).editingId = s.editingId ∧
    (saveBook o s).formName = s.formName ∧
    (saveBook o s).httpRequests = s.httpRequests ∧
    (saveBook o s).statusMessage = "Give the book a title before saving." := by
  have he : saveBook o s = { s with statusMessage := "Give the book a title before saving." } := by
    simp [saveBook, h]
  refine ⟨he, ?_, ?_, ?_, ?_, ?_, ?_⟩ <;> rw [he]

/-- C8 witness at the initial state, whose form title is empty. -/
theorem claim_C8_witness :
    saveBook SaveOutcome.httpError initialState =
      { initialState with statusMessage := "Give the book a title before saving." } :=
  (claim_C8 SaveOutcome.httpError initialState (by decide)).1

/-- C10: removeBook is atomic on failure: when the DELETE rejects, or
responds with a non-2xx status other than 204, the book list, the color
map, the editing state and the form are unchanged and only the status
message is set (no book or color entry is touched); on success the book
and its color entry are removed. -/
theorem claim_C10 :
    (∀ (id : Nat) (msg : String) (s : AppState),
        (removeBook id (DeleteOutcome.reject msg) s).books = s.books ∧
        (removeBook id (DeleteOutcome.reject msg) s).colorMap = s.colorMap ∧
        (removeBook id (DeleteOutcome.reject msg) s).editingId = s.editingId ∧
        (removeBook id (DeleteOutcome.reject msg) s).formName = s.formName ∧
        (removeBook id (DeleteOutcome.reject msg) s).statusMessage = msg) ∧
    (∀ (id status : Nat) (s : AppState),
        responseOk status = false → status ≠ 204 →
        (removeBook id (DeleteOutcome.response status) s).books = s.books ∧
        (removeBook id (DeleteOutcome.response status) s).colorMap = s.colorMap ∧
        (removeBook id (DeleteOutcome.response status) s).editingId = s.editingId ∧
        (removeBook id (DeleteOutcome.response status) s).formName = s.formName ∧
        (removeBook id (DeleteOutcome.response status) s).statusMessage =
          "Could not remove the book. Is the API running?") ∧
    (∀ (id status : Nat) (s : AppState),
        responseOk status = true ∨ status = 204 →
        (removeBook id (DeleteOutcome.response status) s).books =
          s.books.filter (fun b => b.id != id) ∧
        (removeBook id (DeleteOutcome.response status) s).colorMap =
          s.colorMap.filter (fun p => p.1 != id)) := by
  refine ⟨?_, ?_, ?_⟩
  · intro id msg s
    simp [removeBook]
  · intro id status s h1 h2
    simp [removeBook, h1, h2]
  · intro id status s h
    have hc : ¬(responseOk status = false ∧ status ≠ 204) := by
      rcases h with h | h <;> simp [h]
    simp only [removeBook, if_neg hc]
    constructor <;> split <;> simp [resetForm]

/-- C10 witness: a 500 response leaves the shelf unchanged, a 204
response removes the entry. -/
theorem claim_C10_witness :
    ((removeBook 3 (DeleteOutcome.response 500)
        { initialState with books := [⟨3, "b"⟩], colorMap := [(3, "g")] }).books =
      [⟨3, "b"⟩] ∧
     (removeBook 3 (DeleteOutcome.response 204)
        { initialState with books := [⟨3, "b"⟩], colorMap := [(3, "g")] }).colorMap = []) := by
  constructor
  · exact (claim_C10.2.1 3 500 { initialState with books := [⟨3, "b"⟩], colorMap := [(3, "g")] }
      rfl (by decide)).1
  · have h := (claim_C10.2.2 3 204 { initialState with books := [⟨3, "b"⟩], colorMap := [(3, "g")] }
      (Or.inr rfl)).2
    rw [h]
    decide

/-- C3: in every reachable state at most one silent retry fetch is in
flight (the guard flag is an exact single slot), and a tick that fires
while a retry is in flight decrements the countdown or the grace counter
but issues no fetch: the attempt and request counters are unchanged. -/
theorem claim_C3 :
    (∀ (oracle : Nat → Bool) (dataOracle : Nat → List Item) (es : List Event),
        (run oracle dataOracle es).silentInFlightCount ≤ 1) ∧
    (∀ s : AppState, s.bannerFetchInFlight = true →
        ((countdownTick s).attemptsIssued = s.attemptsIssued ∧
         (graceTick s).attemptsIssued = s.attemptsIssued ∧
         (countdownTick s).httpRequests = s.httpRequests ∧
         (graceTick s).httpRequests = s.httpRequests) ∧
        (s.countdownTimer = true → s.bannerCountdown.getD 0 > 1 →
          (countdownTick s).bannerCountdown = some (s.bannerCountdown.getD 0 - 1)) ∧
        (s.graceTimer = true →
          (graceTick s).graceSecondsLeft = s.graceSecondsLeft - 1)) := by
  constructor
  · intro oracle dataOracle es
    have h := invCount_run oracle dataOracle es
    unfold InvCount at h
    rw [h]
    split <;> simp
  · intro s hf
    refine ⟨⟨?_, ?_, ?_, ?_⟩, ?_, ?_⟩
    · unfold countdownTick tryFetchDuringBanner startGracePeriod
      split
      · split
        · simp [hf]
        · rfl
      · rfl
    · unfold graceTick graceCheck
      split
      · dsimp only
        split
        · split <;> rfl
        · rename_i hc
          exact absurd hf hc
      · rfl
    · unfold countdownTick tryFetchDuringBanner startGracePeriod
      split
      · split
        · simp [hf]
        · rfl
      · rfl
    · unfold graceTick graceCheck
      split
      · dsimp only
        split
        · split <;> rfl
        · rename_i hc
          exact absurd hf hc
      · rfl
    · intro hct hgd
      unfold countdownTick tryFetchDuringBanner
      rw [if_pos hct, if_pos hgd]
      simp [hf]
    · intro hgt
      unfold graceTick graceCheck
      rw [if_pos hgt]
      dsimp only
      split
      · split <;> rfl
      · rename_i hc
        exact absurd hf hc

/-- C3 witness: the empty schedule, and a countdown tick over a state
whose retry guard is up. -/
theorem claim_C3_witness :
    (run (fun _ => false) (fun _ => []) []).silentInFlightCount ≤ 1 ∧
    (countdownTick guardUpState).attemptsIssued = guardUpState.attemptsIssued ∧
    (countdownTick guardUpState).bannerCountdown = some 4 :=
  ⟨claim_C3.1 (fun _ => false) (fun _ => []) [],
   ((claim_C3.2 guardUpState rfl).1).1,
   (claim_C3.2 guardUpState rfl).2.1 rfl (by decide)⟩

/-- C6 counterexample: a reachable state (under never-succeeding silent
retries) whose countdown is non-null while the phase is failed, refuting
the claimed invariant for arbitrary interleavings. -/
theorem claim_C6_counterexample :
    (run (fun _ => false) (fun _ => []) esBad).bannerCountdown = some 25 ∧
    (run (fun _ => false) (fun _ => []) esBad).bannerPhase = "failed" ∧
    (run (fun _ => false) (fun _ => []) esBad).bannerPhase ≠ "countdown" ∧
    (run (fun _ => false) (fun _ => []) esBad).bannerVisible = true := by
  decide

/-- C6 as amended: in every reachable state, an invisible banner is in
the idle phase; and under prompt schedules - every silent retry resolves
before the next banner event - the countdown value is non-null only
while the phase is countdown.  Under arbitrary interleavings the
countdown clause can fail (see the counterexample): a retry left in
flight across a banner hide and restart fires a stale grace continuation
that moves the banner to failed while the fresh countdown is non-null. -/
theorem claim_C6 :
    (∀ (oracle : Nat → Bool) (dataOracle : Nat → List Item) (es : List Event),
        (run oracle dataOracle es).bannerVisible = false →
        (run oracle dataOracle es).bannerPhase = "") ∧
    (∀ (oracle : Nat → Bool) (dataOracle : Nat → List Item) (es : List Event),
        ((promptRun oracle dataOracle es).bannerCountdown ≠ none →
          (promptRun oracle dataOracle es).bannerPhase = "countdown") ∧
        ((promptRun oracle dataOracle es).bannerVisible = false →
          (promptRun oracle dataOracle es).bannerPhase = "")) := by
  constructor
  · intro oracle dataOracle es
    exact (invBC_run oracle dataOracle es).1
  · intro oracle dataOracle es
    have h := invP_promptRun oracle dataOracle es
    exact ⟨h.1.1, h.1.2.1⟩

/-- C6 witness at the empty schedule. -/
theorem claim_C6_witness :
    (run (fun _ => false) (fun _ => []) []).bannerPhase = "" ∧
    (promptRun (fun _ => false) (fun _ => []) []).bannerPhase = "" :=
  ⟨claim_C6.1 (fun _ => false) (fun _ => []) [] rfl,
   (claim_C6.2 (fun _ => false) (fun _ => []) []).2 rfl⟩

/-- C7: a manual refresh re-enters the monitor with
allowImmediateFailure = false, and on any failing outcome - including a
hard network error with no response object - the banner takes the
countdown path (phase countdown, countdown 25), never the
immediate-failure shortcut. -/
theorem claim_C7 (o : FetchOutcome) (h : o.isFailure = true) :
    (mainResolve o (fetchBooksStart ⟨true, false⟩ initialState)).bannerPhase = "countdown" ∧
    (mainResolve o (fetchBooksStart ⟨true, false⟩ initialState)).bannerCountdown = some 25 ∧
    (mainResolve o (fetchBooksStart ⟨true, false⟩ initialState)).bannerPhase ≠ "failed" := by
  cases o with
  | success data => simp [FetchOutcome.isFailure] at h
  | httpError => exact ⟨rfl, rfl, by decide⟩
  | networkError msg =>
    refine ⟨rfl, rfl, ?_⟩
    rw [show (mainResolve (FetchOutcome.networkError msg)
      (fetchBooksStart ⟨true, false⟩ initialState)).bannerPhase = "countdown" from rfl]
    decide

/-- C7 witness: even the error message that the immediate-failure
heuristic matches on is forced onto the countdown path. -/
theorem claim_C7_witness :
    (mainResolve (FetchOutcome.networkError "Failed to fetch")
      (fetchBooksStart ⟨true, false⟩ initialState)).bannerPhase = "countdown" :=
  (claim_C7 (FetchOutcome.networkError "Failed to fetch") rfl).1

/-- C4 counterexample: a fetch that always fails with an HTTP error (a
response object is present and the message is not the network-error
string) does not short-circuit: with allowImmediateFailure = true and no
prior success the banner still enters countdown, not failed, refuting the
claim's quantification over every always-failing fetch. -/
theorem claim_C4_counterexample :
    (mainResolve FetchOutcome.httpError
      (fetchBooksStart ⟨true, true⟩ initialState)).bannerPhase = "countdown" ∧
    (mainResolve FetchOutcome.httpError
      (fetchBooksStart ⟨true, true⟩ initialState)).bannerPhase ≠ "failed" := by
  decide

/-- C4 as amended: when the failing fetch fails with a hard network
error (fetch rejects, no response object) before the 1.2 s kickoff delay
fires, the monitor started with allowImmediateFailure = true and no prior
success goes directly from idle to failed - the countdown phase is never
set up - and the 3-second final timeout then hides the banner. -/
theorem claim_C4_amended (msg : String) :
    (mainResolve (FetchOutcome.networkError msg)
      (fetchBooksStart ⟨true, true⟩ initialState)).bannerPhase = "failed" ∧
    (mainResolve (FetchOutcome.networkError msg)
      (fetchBooksStart ⟨true, true⟩ initialState)).bannerCountdown = none ∧
    (mainResolve (FetchOutcome.networkError msg)
      (fetchBooksStart ⟨true, true⟩ initialState)).bannerVisible = true ∧
    (mainResolve (FetchOutcome.networkError msg)
      (fetchBooksStart ⟨true, true⟩ initialState)).countdownTimer = false ∧
    (mainResolve (FetchOutcome.networkError msg)
      (fetchBooksStart ⟨true, true⟩ initialState)).finalTimer = true ∧
    (stepFF Event.finalDone (mainResolve (FetchOutcome.networkError msg)
      (fetchBooksStart ⟨true, true⟩ initialState))).bannerVisible = false ∧
    (stepFF Event.finalDone (mainResolve (FetchOutcome.networkError msg)
      (fetchBooksStart ⟨true, true⟩ initialState))).bannerPhase = "" :=
  ⟨rfl, rfl, rfl, rfl, rfl, rfl, rfl⟩

/-- C4 amended witness at a concrete network-error message. -/
theorem claim_C4_amended_witness :
    (mainResolve (FetchOutcome.networkError "Failed to fetch")
      (fetchBooksStart ⟨true, true⟩ initialState)).bannerPhase = "failed" :=
  (claim_C4_amended "Failed to fetch").1

/-- C5: the claim (teardown cancels every outstanding timer, the banner
kickoff delay timer included) is right and the code is wrong: the
onUnmounted handler is clearBannerTimers, which does not clear
bannerDelayTimer, so unmounting within the 1.2 s kickoff window leaves
the delay timer scheduled, and when it fires after teardown it starts
the wake banner and a fresh countdown interval - observable state
mutation after teardown. -/
theorem claim_C5_bug :
    (unmount (fetchBooksStart ⟨true, true⟩ initialState)).bannerDelayTimer = true ∧
    (delayFire (unmount (fetchBooksStart ⟨true, true⟩ initialState))).bannerVisible = true ∧
    (delayFire (unmount (fetchBooksStart ⟨true, true⟩ initialState))).bannerPhase =
      "countdown" ∧
    (delayFire (unmount (fetchBooksStart ⟨true, true⟩ initialState))).countdownTimer = true := by
  decide

end DaeR
